import Mathlib

/-!
Verification development for the SpellClickMaster detection-and-trigger core.

The definitions below are a shallow embedding of the Python sources:

* `src/SpellClickMaster/utils/advanced_icon_matcher.py` — `AdvancedIconMatcher`
  (`find_best_match`, `find_all_matches` with non-maximum suppression);
* `src/SpellClickMaster/utils/icon_matcher.py` — `IconMatcher.find_best_match`
  (stability window);
* `src/SpellClickMaster/spell_detector.py` — `SpellDetector` (`start`,
  `_detection_loop` tick, cooldown gate, attribute usage);
* `src/SpellClickMaster/ui/configuration_dialog.py` — `on_spell_name_changed`
  (template/keybind rename).

Floating point confidences and times are embedded as rationals: the embedded
logic only compares, subtracts and copies them, so the order structure is all
that matters.  Calls into OpenCV (`cv2.matchTemplate`, SIFT/ORB detectors,
histogram comparison) and the OS capture/keyboard layers are external
collaborators; they enter the model as explicit parameters (per-attempt score
functions, correlation matrices, per-frame confidence lists).
-/

namespace SpellClickMaster

/-- Embedding of the `MatchResult` namedtuple of `advanced_icon_matcher.py`
(line 14): `(name, confidence, location, method)`. -/
structure MatchResult where
  name : String
  confidence : ℚ
  location : ℤ × ℤ
  method : String
deriving DecidableEq

/-! ### AdvancedIconMatcher.find_best_match (advanced_icon_matcher.py lines 68-126)

The double loop `for name, template in templates.items(): for method in methods:`
is flattened into the explicit attempt list `attemptsOf`.  Each attempt calls one
of `_match_template` / `_match_sift` / `_match_orb` / `_match_histogram`, all of
which either return a `MatchResult` or `None`; the whole per-attempt call is
abstracted as `runMethod : String → String → Option MatchResult` (the pixel-level
scoring happens inside OpenCV).  `best_confidence` starts at `threshold` (line 92)
and a candidate replaces the current best only when strictly greater (line 114). -/

/-- Attempt list: templates in iteration order (paired with the validity of the
stored image, `template is None or template.size == 0` being skipped at line 97),
each tried with every method in order (line 101). -/
def attemptsOf (templates : List (String × Bool)) (methods : List String) :
    List (String × String) :=
  (templates.filter (fun t => t.2)).flatMap (fun t => methods.map (fun m => (t.1, m)))

/-- Inner fold of `find_best_match`: walk the attempts, keeping `best_match` and
`best_confidence`, replacing only on a strictly greater confidence (line 114). -/
def findBestMatchGo (attempts : List (String × String))
    (runMethod : String → String → Option MatchResult)
    (best : Option MatchResult) (bestConf : ℚ) : Option MatchResult :=
  match attempts with
  | [] => best
  | (n, m) :: rest =>
    match runMethod n m with
    | some r =>
      if bestConf < r.confidence then
        findBestMatchGo rest runMethod (some r) r.confidence
      else
        findBestMatchGo rest runMethod best bestConf
    | none => findBestMatchGo rest runMethod best bestConf

/-- Model of `AdvancedIconMatcher.find_best_match`: `best_match = None`,
`best_confidence = threshold`, then the attempt fold; returns `best_match`. -/
def findBestMatch (templates : List (String × Bool)) (methods : List String)
    (runMethod : String → String → Option MatchResult) (threshold : ℚ) :
    Option MatchResult :=
  findBestMatchGo (attemptsOf templates methods) runMethod none threshold

/-! ### Exception behaviour of find_best_match

`find_best_match` and the `_match_*` helpers of `advanced_icon_matcher.py`
contain no `try`/`except`: a Python exception raised while scoring one attempt
(e.g. `cv2.error`, or the unpacking failure in `_match_sift`'s ratio test)
aborts the whole call.  The per-attempt call is therefore also modelled with an
explicit exception channel: `.ok none` is a structured precondition failure
(insufficient keypoints at `_match_sift` line 173, template larger than frame
at `_match_template` line 131, grayscale input at `_match_histogram` line 276),
`.error e` is a raised exception.  The fold propagates `.error` immediately,
exactly as uncaught Python exceptions do. -/

/-- Variant of the `find_best_match` fold with a raised-exception channel. -/
def findBestMatchGoE (attempts : List (String × String))
    (runMethod : String → String → Except String (Option MatchResult))
    (best : Option MatchResult) (bestConf : ℚ) : Except String (Option MatchResult) :=
  match attempts with
  | [] => .ok best
  | (n, m) :: rest =>
    match runMethod n m with
    | .error e => .error e
    | .ok none => findBestMatchGoE rest runMethod best bestConf
    | .ok (some r) =>
      if bestConf < r.confidence then
        findBestMatchGoE rest runMethod (some r) r.confidence
      else
        findBestMatchGoE rest runMethod best bestConf

/-- Model of `find_best_match` with the exception channel. -/
def findBestMatchE (templates : List (String × Bool)) (methods : List String)
    (runMethod : String → String → Except String (Option MatchResult))
    (threshold : ℚ) : Except String (Option MatchResult) :=
  findBestMatchGoE (attemptsOf templates methods) runMethod none threshold

/-! ### AdvancedIconMatcher.find_all_matches (advanced_icon_matcher.py lines 351-426)

The grayscale conversion and `cv2.matchTemplate` call (lines 376-387) live in
OpenCV; the function is modelled from the correlation matrix `result` onward
(`result` is a matrix of scores indexed row `y`, column `x`) together with the
template dimensions `tw × th`.  Everything after line 387 is repository logic:
thresholding with `np.where(result >= threshold)`, the x/y swap, the stable
confidence-descending sort, and the greedy non-maximum suppression capped at
`max_results`. -/

/-- A candidate match `(x, y, confidence)`. -/
abbrev Cand := ℕ × ℕ × ℚ

/-- Locations scoring at least `threshold` (line 390, `result >= threshold`),
listed in row-major scan order as produced by `zip(*locations[::-1])`
(lines 394-396): for each row `y` in order, each column `x` in order. -/
def thresholdLocations (result : List (List ℚ)) (threshold : ℚ) : List Cand :=
  result.enum.flatMap (fun yrow =>
    yrow.2.enum.filterMap (fun xv =>
      if threshold ≤ xv.2 then some (xv.1, yrow.1, xv.2) else none))

/-- Confidence-descending order used by `matches.sort(key=..., reverse=True)`
(line 399). -/
def confGE (a b : Cand) : Prop := b.2.2 ≤ a.2.2

instance : DecidableRel confGE := fun a b => inferInstanceAs (Decidable (b.2.2 ≤ a.2.2))

instance : IsTotal Cand confGE := ⟨fun a b => le_total b.2.2 a.2.2⟩

instance : IsTrans Cand confGE := ⟨fun _ _ _ h1 h2 => le_trans h2 h1⟩

/-- Overlap area of two template-sized boxes (lines 413-415).  The source
computes `max(0, min(x1+w, x2+w) - max(x1, x2))` in each axis; natural-number
truncated subtraction realises the same clamped value. -/
def overlapArea (tw th : ℕ) (a b : Cand) : ℕ :=
  (min (a.1 + tw) (b.1 + tw) - max a.1 b.1) *
    (min (a.2.1 + th) (b.2.1 + th) - max a.2.1 b.2.1)

/-- Line 419: `overlap_area > 0.5 * template_area`, written over integers as
`2 * overlap_area > template_area` (an exact reformulation). -/
def overlapBig (tw th : ℕ) (a b : Cand) : Bool :=
  decide (tw * th < 2 * overlapArea tw th a b)

/-- Greedy non-maximum suppression loop (lines 405-424): stop once
`max_results` accepted; drop a candidate overlapping any accepted one by more
than half the template area; otherwise accept it. -/
def nmsGo (tw th maxResults : ℕ) : List Cand → List Cand → List Cand
  | [], final => final
  | c :: rest, final =>
    if maxResults ≤ final.length then final
    else if final.any (fun e => overlapBig tw th c e) then nmsGo tw th maxResults rest final
    else nmsGo tw th maxResults rest (final ++ [c])

/-- Model of `find_all_matches` from the correlation matrix onward: threshold filter,
stable sort by confidence descending, then non-maximum suppression. -/
def findAllMatches (result : List (List ℚ)) (tw th : ℕ) (threshold : ℚ)
    (maxResults : ℕ) : List Cand :=
  nmsGo tw th maxResults
    (List.insertionSort confGE (thresholdLocations result threshold)) []

/-! ### Association-list operations (Python dict semantics)

`keybinds` and `icon_templates` are Python dicts; the embedding uses
association lists with first-match lookup, replace-in-place insertion and
deletion, matching dict assignment / `del` / `.get`. -/

/-- Dict lookup (`d.get(k)` / `d[k]`): first matching key. -/
def dlookup {α : Type} : List (String × α) → String → Option α
  | [], _ => none
  | (k', v) :: rest, k => if k' = k then some v else dlookup rest k

/-- Dict assignment (`d[k] = v`): replace the first occurrence in place, or
append when the key is new. -/
def dinsert {α : Type} : List (String × α) → String → α → List (String × α)
  | [], k, v => [(k, v)]
  | (k', v') :: rest, k, v =>
    if k' = k then (k', v) :: rest else (k', v') :: dinsert rest k v

/-- Dict deletion (`del d[k]`): drop the first occurrence. -/
def derase {α : Type} : List (String × α) → String → List (String × α)
  | [], _ => []
  | (k', v') :: rest, k => if k' = k then rest else (k', v') :: derase rest k

/-! ### SpellDetector.start (spell_detector.py lines 96-118) -/

/-- State relevant to `SpellDetector.start`: `running`/`paused` flags, whether a
detection thread has been spawned, the configured scan area (a falsy
`self.scan_area` is `none`) and the keybind dict (falsy when empty). -/
structure DetectorState where
  running : Bool
  paused : Bool
  threadSpawned : Bool
  scanArea : Option (ℤ × ℤ × ℤ × ℤ)
  keybinds : List (String × String)
deriving DecidableEq

/-- Model of `SpellDetector.start`: returns `False` unchanged when already running, when
`not self.scan_area`, or when `not self.keybinds`; otherwise sets
`running = True`, `paused = False`, spawns the detection thread and returns
`True`. -/
def start (s : DetectorState) : Bool × DetectorState :=
  if s.running then (false, s)
  else if s.scanArea = none then (false, s)
  else if s.keybinds = [] then (false, s)
  else (true, { s with running := true, paused := false, threadSpawned := true })

/-! ### Rename (configuration_dialog.py lines 287-340)

`on_spell_name_changed` works on the `icon_templates` and `keybinds` dicts.
After the guard clauses (empty new name, no selection, unchanged name) it
refuses when `new_name in icon_templates`, otherwise moves the template entry
and the keybind entry from `old_name` to `new_name`
(`d[new] = d[old]; del d[old]`, each guarded by `old_name in d`).
`enhanced_config_dialog.py` lines 306-361 contains the same logic on the
per-class config.  Template images are abstracted as an arbitrary type. -/

/-- The rename step of `on_spell_name_changed` on the two dicts.  Returns the
updated `(icon_templates, keybinds)` pair; the guard clauses that bail out
leave both unchanged. -/
def renameSpell {Img : Type} (tpls : List (String × Img))
    (kbs : List (String × String)) (oldName newName : String) :
    List (String × Img) × List (String × String) :=
  if newName = "" then (tpls, kbs)            -- `if not new_name: return`
  else if oldName = newName then (tpls, kbs)  -- `if old_name == new_name: return`
  else if (dlookup tpls newName).isSome then (tpls, kbs)  -- name already exists
  else
    let tpls' := match dlookup tpls oldName with
      | some img => derase (dinsert tpls newName img) oldName
      | none => tpls
    let kbs' := match dlookup kbs oldName with
      | some key => derase (dinsert kbs newName key) oldName
      | none => kbs
    (tpls', kbs')

/-! ### IconMatcher.find_best_match (icon_matcher.py lines 21-108)

The per-template loop (lines 47-84) grayscales, normalizes and correlates each
template against the frame via OpenCV; the embedding takes the per-template
confidences the loop would compute, in template iteration order, and models the
selection (strictly-greater replacement starting from `best_confidence = 0`,
`best_match_name = None`, lines 35-36 and 82-84) and the stability-window
post-processing (lines 86-104) exactly.  `max_recent_matches = 3` and
`stability_threshold = 2` are the constructor constants (lines 18-19). -/

/-- Raw best-match selection of the current frame (lines 35-36, 82-84):
`if confidence > best_confidence: best_confidence, best_match_name = ...`. -/
def bestRawGo : List (String × ℚ) → Option String → ℚ → Option String × ℚ
  | [], best, bestConf => (best, bestConf)
  | (name, c) :: rest, best, bestConf =>
    if bestConf < c then bestRawGo rest (some name) c
    else bestRawGo rest best bestConf

/-- The `recent_matches` push (lines 88-90): append, then `pop(0)` when the window
exceeds `max_recent_matches = 3`. -/
def pushRecent (recent : List String) (name : String) : List String :=
  let r := recent ++ [name]
  if 3 < r.length then r.drop 1 else r

/-- Number of occurrences of `x` in `l` (the count `Counter` assigns to `x`). -/
def countName (l : List String) (x : String) : ℕ := (l.filter (fun y => y = x)).length

/-- Distinct names of `l` in first-occurrence order: the key order of
`Counter(l)` (Python dicts preserve insertion order, and `Counter` inserts each
name when first seen). -/
def firstKeys (l : List String) : List String :=
  l.foldl (fun acc x => if x ∈ acc then acc else acc ++ [x]) []

/-- Selection underlying `Counter(l).most_common(1)[0][0]`: scan the keys in
first-occurrence order keeping the strictly highest count.  (`most_common` is a
stable descending sort of the counter's items, so among equal counts the
first-seen key wins.) -/
def mostCommonGo (l : List String) : List String → String → ℕ → String
  | [], best, _ => best
  | k :: rest, best, bestCount =>
    if bestCount < countName l k then mostCommonGo l rest k (countName l k)
    else mostCommonGo l rest best bestCount

/-- Model of `Counter(l).most_common(1)[0][0]` (line 101), with `dflt` returned for an
empty list (in the source the window is nonempty at this point). -/
def mostCommon (l : List String) (dflt : String) : String :=
  mostCommonGo l (firstKeys l) dflt 0

/-- Modelled from the spec: the tie-break the spec attributes to the stability
filter, "the most frequent name across the whole FIFO (ties broken by
most-recently-seen)".  Scans the keys in most-recent-first order of their last
occurrence and keeps the strictly highest count, so a frequency tie resolves to
the most recently seen name.  This definition follows the spec's words, for
comparison against `mostCommon`, which is translated from the code. -/
def specMostFrequentRecentTie (l : List String) (dflt : String) : String :=
  mostCommonGo l (firstKeys l.reverse) dflt 0

/-- The trailing `stability_threshold` entries of the window
(`self.recent_matches[-self.stability_threshold:]`, line 94). -/
def lastEntries (n : ℕ) (l : List String) : List String := l.drop (l.length - n)

/-- Whether the most recent `stability_threshold` entries are all identical
(line 95: `all(match == last_matches[0] for match in last_matches)`). -/
def allSame (l : List String) : Bool :=
  match l with
  | [] => true
  | x :: rest => rest.all (fun y => y = x)

/-- Model of `IconMatcher.find_best_match` from the per-template confidences onward:
raw best selection, window push (only when `best_match_name` is truthy — `None`
and the empty string are both falsy in Python), stability check, and the
most-common fallback.  Returns `((name, confidence), new_window)`. -/
def iconMatcherFindBestMatch (recent : List String)
    (results : List (String × ℚ)) : (Option String × ℚ) × List String :=
  let rb := bestRawGo results none 0
  match rb.1 with
  | none => ((none, rb.2), recent)
  | some name =>
    if name = "" then ((some name, rb.2), recent)
    else
      let recent' := pushRecent recent name
      if 2 ≤ recent'.length then
        if allSame (lastEntries 2 recent') then
          ((some name, rb.2), recent')
        else
          ((some (mostCommon recent' name), rb.2), recent')
      else
        ((some name, rb.2), recent')

/-! ### SpellDetector attribute usage (spell_detector.py)

`_detection_loop` reads attributes that no method of the class assigns: the
constructor (lines 24-53) assigns `icon_templates`, `keyboard` and
`last_action_time`, while the scan step reads `templates` (line 200),
`last_detection_time` (line 215) and `keyboard_controller` (line 224).  The
attribute environment is modelled as the list of instance-attribute names a
method's assignments establish, plus the class-level signal attributes; a tick
is modelled by the sequence of attribute reads it performs in program order, an
undefined read raising `AttributeError` and aborting the tick (and the thread —
the loop body has no exception handler). -/

/-- Instance attributes assigned by `SpellDetector.__init__` (lines 24-53). -/
def constructorAssigns : List String :=
  ["config_manager", "screen_capture", "keyboard", "icon_matcher",
   "running", "paused", "detection_thread", "last_detected_icon",
   "last_action_time", "scan_area", "detection_frequency",
   "confidence_threshold", "cooldown", "keybinds", "icon_templates",
   "fps", "frame_times", "max_frame_times"]

/-- Attributes assigned by `update_config` (lines 151-160). -/
def updateConfigAssigns : List String :=
  ["scan_area", "detection_frequency", "confidence_threshold", "cooldown",
   "keybinds", "icon_templates"]

/-- Attributes assigned by `start` (lines 112-114). -/
def startAssigns : List String := ["running", "paused", "detection_thread"]

/-- Attributes assigned by `pause` (line 123). -/
def pauseAssigns : List String := ["paused"]

/-- Attributes assigned by `resume` (line 132). -/
def resumeAssigns : List String := ["paused"]

/-- Attributes assigned by `stop` (lines 143-144). -/
def stopAssigns : List String := ["running", "paused"]

/-- Attributes assigned by `_add_preset_templates` (lines 55-94): it only
mutates the contents of the `icon_templates` and `keybinds` dicts, assigning no
new instance attribute. -/
def addPresetTemplatesAssigns : List String := []

/-- Class-level signal attributes (lines 20-22), visible on the instance. -/
def classAttributes : List String :=
  ["status_updated", "icon_detected", "screenshot_updated"]

/-- Every attribute-assignment list of a state-establishing method of
`SpellDetector` (all methods except `_detection_loop` itself, whose only
assignment, `last_detection_time` at line 226, sits after reads of
`templates` and `last_detection_time` on the same path). -/
def methodAssigns : List (List String) :=
  [constructorAssigns, updateConfigAssigns, startAssigns, pauseAssigns,
   resumeAssigns, stopAssigns, addPresetTemplatesAssigns]

/-- Attribute reads performed by a `_detection_loop` tick, in program order,
on the path where the capture succeeds (lines 174-200): the `while` guard,
the pause check, the scan area, the capture object, the screenshot signal, and
then — first statement of the template-scanning step — `self.templates`
(line 200).  The reads after that point (`_match_template`,
`confidence_threshold`, `last_detection_time`, `cooldown`, `keybinds`,
`keyboard_controller`, `icon_detected`, `detection_frequency`) are listed in
source order as well. -/
def scanTickReads : List String :=
  ["running", "paused", "scan_area", "screen_capture", "screenshot_updated",
   "templates", "_match_template", "confidence_threshold",
   "last_detection_time", "cooldown", "keybinds", "keyboard_controller",
   "icon_detected", "detection_frequency"]

/-- First attribute read of a successful-capture tick that is undefined in the
environment `defined`: the read whose lookup raises `AttributeError`. -/
def firstUndefinedRead (defined : List String) : Option String :=
  scanTickReads.find? (fun a => decide (a ∉ defined))

/-- A tick completes normally only when every attribute it reads is defined. -/
def tickCompletes (defined : List String) : Bool :=
  scanTickReads.all (fun a => decide (a ∈ defined))

/-- The attribute environment established by the constructor: instance
attributes assigned by `__init__` plus the class-level signals. -/
def constructorEnv : List String := constructorAssigns ++ classAttributes

/-- Outcome of the template-scanning step of one successful-capture tick, as a
function of the attribute environment: Python resolves the attribute lookups
in program order and the first undefined one raises `AttributeError`, which
aborts the tick and kills the thread (the loop body has no exception handler);
only if every lookup resolved could the step run to completion. -/
inductive TickResult where
  | attrError (attr : String)
  | completed
deriving DecidableEq

/-- Run the attribute reads of a successful-capture tick over the environment
`defined`, aborting at the first undefined read. -/
def scanTickRun (defined : List String) : TickResult :=
  match scanTickReads.find? (fun a => decide (a ∉ defined)) with
  | some a => TickResult.attrError a
  | none => TickResult.completed

/-- Attribute reads that precede the key-press call
`self.keyboard_controller.press_key(key)` (line 224) on its execution path,
in program order (lines 174, 175, 180, 186, 193, 200, 202, 210, 215, 221,
224): a key press can only happen on a tick where every one of these lookups
resolved. -/
def readsBeforePress : List String :=
  ["running", "paused", "scan_area", "screen_capture", "screenshot_updated",
   "templates", "_match_template", "confidence_threshold",
   "last_detection_time", "cooldown", "keybinds", "keyboard_controller"]

/-- Whether the press call site of line 224 is reachable under the attribute
environment `defined`: every read preceding the press resolves. -/
def pressReachable (defined : List String) : Bool :=
  readsBeforePress.all (fun a => decide (a ∈ defined))

/-- Every attribute name the program can establish on a `SpellDetector`
instance: the class-level signals plus the assignments of all the
state-establishing methods (the lists collected in `methodAssigns`).  The only
other assignment in the class, `last_detection_time` at line 226 of
`_detection_loop`, is dead code: on its own path it is preceded by the reads
of `templates` (line 200) and `last_detection_time` itself (line 215), which
raise `AttributeError` first, so no execution reaches it. -/
def establishableAttributes : List String :=
  classAttributes ++ constructorAssigns ++ updateConfigAssigns ++ startAssigns ++
    pauseAssigns ++ resumeAssigns ++ stopAssigns ++ addPresetTemplatesAssigns

/-! ## Theorems -/

/-- Once the fold holds a `some` best, it returns a `some` result. -/
theorem findBestMatchGo_some_isSome (as : List (String × String))
    (f : String → String → Option MatchResult) (r : MatchResult) (c : ℚ) :
    (findBestMatchGo as f (some r) c).isSome := by
  induction as generalizing r c with
  | nil => rfl
  | cons a rest ih =>
    obtain ⟨n, m⟩ := a
    simp only [findBestMatchGo]
    cases h : f n m with
    | none => exact ih r c
    | some r' =>
      by_cases hlt : c < r'.confidence
      · simp only [if_pos hlt]; exact ih r' r'.confidence
      · simp only [if_neg hlt]; exact ih r c

/-- The fold starting from `None` produces a result exactly when some attempt
scores strictly above the running baseline `c`. -/
theorem findBestMatchGo_none_isSome_iff (as : List (String × String))
    (f : String → String → Option MatchResult) (c : ℚ) :
    (findBestMatchGo as f none c).isSome =
      true ↔ ∃ p ∈ as, ∃ r, f p.1 p.2 = some r ∧ c < r.confidence := by
  induction as with
  | nil =>
    simp [findBestMatchGo]
  | cons a rest ih =>
    obtain ⟨n, m⟩ := a
    simp only [findBestMatchGo]
    cases h : f n m with
    | none =>
      rw [ih]
      constructor
      · rintro ⟨p, hp, r, hr, hlt⟩
        exact ⟨p, List.mem_cons_of_mem _ hp, r, hr, hlt⟩
      · rintro ⟨p, hp, r, hr, hlt⟩
        rcases List.mem_cons.mp hp with rfl | hp'
        · rw [h] at hr; cases hr
        · exact ⟨p, hp', r, hr, hlt⟩
    | some r' =>
      by_cases hlt : c < r'.confidence
      · simp only [if_pos hlt]
        constructor
        · intro _
          exact ⟨(n, m), List.mem_cons_self _ _, r', h, hlt⟩
        · intro _
          exact findBestMatchGo_some_isSome rest f r' r'.confidence
      · simp only [if_neg hlt]
        rw [ih]
        constructor
        · rintro ⟨p, hp, r, hr, hlt'⟩
          exact ⟨p, List.mem_cons_of_mem _ hp, r, hr, hlt'⟩
        · rintro ⟨p, hp, r, hr, hlt'⟩
          rcases List.mem_cons.mp hp with rfl | hp'
          · rw [h] at hr
            cases hr
            exact absurd hlt' hlt
          · exact ⟨p, hp', r, hr, hlt'⟩

/-- C1: `AdvancedIconMatcher.find_best_match` returns a `MatchResult` exactly
when some (template, method) attempt yields a result whose confidence strictly
exceeds the threshold `t`; in particular, when every attempt's confidence is
less than or equal to `t` (including exactly equal), it returns `None`.  The
baseline `best_confidence = threshold` together with the strictly-greater
update realises the strict gate. -/
theorem find_best_match_strict_threshold_gate (templates : List (String × Bool))
    (methods : List String) (runMethod : String → String → Option MatchResult)
    (t : ℚ) :
    (findBestMatch templates methods runMethod t).isSome = true ↔
      ∃ p ∈ attemptsOf templates methods,
        ∃ r, runMethod p.1 p.2 = some r ∧ t < r.confidence := by
  exact findBestMatchGo_none_isSome_iff (attemptsOf templates methods) runMethod t

/-- Witness for C1: one valid template tried with the template method at
confidence 9/10 against threshold 4/5 produces a result, by the gate theorem;
and the same attempt set with every confidence equal to the threshold yields
none. -/
theorem find_best_match_strict_threshold_gate_witness :
    (findBestMatch [("N5", true)] ["template"]
        (fun _ _ => some ⟨"N5", 9/10, (0, 0), "template"⟩) (4/5)).isSome = true ∧
      findBestMatch [("N5", true)] ["template"]
        (fun _ _ => some ⟨"N5", 4/5, (0, 0), "template"⟩) (4/5) = none := by
  constructor
  · exact (find_best_match_strict_threshold_gate [("N5", true)] ["template"]
      (fun _ _ => some ⟨"N5", 9/10, (0, 0), "template"⟩) (4/5)).mpr
      ⟨("N5", "template"), by norm_num [attemptsOf],
        ⟨"N5", 9/10, (0, 0), "template"⟩, rfl, by norm_num⟩
  · have h := (find_best_match_strict_threshold_gate [("N5", true)] ["template"]
      (fun _ _ => some ⟨"N5", 4/5, (0, 0), "template"⟩) (4/5))
    cases hv : findBestMatch [("N5", true)] ["template"]
        (fun _ _ => some ⟨"N5", 4/5, (0, 0), "template"⟩) (4/5) with
    | none => rfl
    | some r =>
      rw [hv] at h
      obtain ⟨p, _, r', hr', hlt⟩ := h.mp rfl
      cases hr'
      exact absurd hlt (by norm_num)

/-- Skipping lemma: an attempt that reports the structured no-result failure
(`.ok none`) leaves the fold's outcome exactly as if the attempt were absent. -/
theorem findBestMatchGoE_skip (l2 : List (String × String)) (a : String × String)
    (f : String → String → Except String (Option MatchResult))
    (hfail : f a.1 a.2 = .ok none) :
    ∀ (l1 : List (String × String)) (best : Option MatchResult) (c : ℚ),
      findBestMatchGoE (l1 ++ a :: l2) f best c = findBestMatchGoE (l1 ++ l2) f best c := by
  intro l1
  induction l1 with
  | nil =>
    intro best c
    obtain ⟨n, m⟩ := a
    simp only [List.nil_append, findBestMatchGoE]
    rw [show f n m = Except.ok none from hfail]
  | cons b rest ih =>
    intro best c
    obtain ⟨n, m⟩ := b
    simp only [List.cons_append, findBestMatchGoE]
    cases h : f n m with
    | error e => rfl
    | ok o =>
      cases o with
      | none => exact ih best c
      | some r =>
        by_cases hlt : c < r.confidence
        · simp only [if_pos hlt]; exact ih (some r) r.confidence
        · simp only [if_neg hlt]; exact ih best c

/-- When no attempt raises, the fold never produces an error. -/
theorem findBestMatchGoE_ok_of_no_raise (as : List (String × String))
    (f : String → String → Except String (Option MatchResult)) :
    ∀ (best : Option MatchResult) (c : ℚ),
      (∀ p ∈ as, ∃ o, f p.1 p.2 = .ok o) →
        ∃ r, findBestMatchGoE as f best c = .ok r := by
  induction as with
  | nil => exact fun best c _ => ⟨best, rfl⟩
  | cons a rest ih =>
    intro best c hok
    obtain ⟨n, m⟩ := a
    obtain ⟨o, ho⟩ := hok (n, m) (List.mem_cons_self _ _)
    have hrest : ∀ p ∈ rest, ∃ o, f p.1 p.2 = .ok o :=
      fun p hp => hok p (List.mem_cons_of_mem _ hp)
    simp only [findBestMatchGoE]
    rw [show f n m = Except.ok o from ho]
    cases o with
    | none => exact ih best c hrest
    | some r =>
      by_cases hlt : c < r.confidence
      · simp only [if_pos hlt]; exact ih (some r) r.confidence hrest
      · simp only [if_neg hlt]; exact ih best c hrest

/-- C6 (amended): inside `find_best_match`'s attempt fold, a single attempt
whose precondition fails — insufficient keypoints or descriptors, template
larger than the frame, grayscale input to the histogram method — returns the
structured no-result value, and such a failure is local: the fold's outcome is
exactly the outcome with that attempt removed, so every remaining method and
template is still evaluated; moreover when no attempt raises an exception, no
error ever leaves the fold.  (An exception raised while matching, by contrast,
does propagate — see the counterexample.) -/
theorem find_best_match_attempt_failure_isolation
    (l1 l2 : List (String × String)) (a : String × String)
    (f : String → String → Except String (Option MatchResult))
    (best : Option MatchResult) (c : ℚ)
    (hfail : f a.1 a.2 = .ok none) :
    findBestMatchGoE (l1 ++ a :: l2) f best c = findBestMatchGoE (l1 ++ l2) f best c ∧
      ((∀ p ∈ l1 ++ l2, ∃ o, f p.1 p.2 = .ok o) →
        ∃ r, findBestMatchGoE (l1 ++ a :: l2) f best c = .ok r) := by
  constructor
  · exact findBestMatchGoE_skip l2 a f hfail l1 best c
  · intro hok
    rw [findBestMatchGoE_skip l2 a f hfail l1 best c]
    exact findBestMatchGoE_ok_of_no_raise (l1 ++ l2) f best c hok

/-- Witness for C6: a SIFT attempt on template B fails its precondition
(`.ok none`) between two successful template attempts; the fold's result equals
the result without that attempt, and the whole call returns without an error. -/
theorem find_best_match_attempt_failure_isolation_witness :
    (findBestMatchGoE
        ([("A", "template")] ++ ("B", "sift") :: [("C", "template")])
        (fun n _ => if n = "B" then .ok none
          else .ok (some ⟨n, 1, (0, 0), "template"⟩)) none 0 =
      findBestMatchGoE ([("A", "template")] ++ [("C", "template")])
        (fun n _ => if n = "B" then .ok none
          else .ok (some ⟨n, 1, (0, 0), "template"⟩)) none 0) ∧
      ∃ r, findBestMatchGoE
          ([("A", "template")] ++ ("B", "sift") :: [("C", "template")])
          (fun n _ => if n = "B" then .ok none
            else .ok (some ⟨n, 1, (0, 0), "template"⟩)) none 0 = .ok r := by
  have h := find_best_match_attempt_failure_isolation
    [("A", "template")] [("C", "template")] ("B", "sift")
    (fun n _ => if n = "B" then .ok none
      else .ok (some ⟨n, 1, (0, 0), "template"⟩)) none 0 rfl
  refine ⟨h.1, h.2 ?_⟩
  intro p hp
  rcases List.mem_cons.mp hp with rfl | hp'
  · exact ⟨some ⟨"A", 1, (0, 0), "template"⟩, rfl⟩
  · rcases List.mem_cons.mp hp' with rfl | hp''
    · exact ⟨some ⟨"C", 1, (0, 0), "template"⟩, rfl⟩
    · cases hp''

/-- C6 counterexample: the claim's clause that an exception raised while
matching is recovered per attempt is false — `find_best_match` contains no
exception handler, so a raised exception propagates out of the call: with the
first attempt raising, the call returns that error and no `.ok` outcome
exists, and the second template is never evaluated. -/
theorem find_best_match_exception_propagates_counterexample :
    findBestMatchE [("A", true), ("B", true)] ["template"]
        (fun n _ => if n = "A" then .error "cv2.error"
          else .ok (some ⟨"B", 1, (0, 0), "template"⟩)) 0 = .error "cv2.error" ∧
      ¬ ∃ o, findBestMatchE [("A", true), ("B", true)] ["template"]
        (fun n _ => if n = "A" then .error "cv2.error"
          else .ok (some ⟨"B", 1, (0, 0), "template"⟩)) 0 = .ok o := by
  refine ⟨rfl, ?_⟩
  rintro ⟨o, ho⟩
  rw [show findBestMatchE [("A", true), ("B", true)] ["template"]
      (fun n _ => if n = "A" then .error "cv2.error"
        else .ok (some ⟨"B", 1, (0, 0), "template"⟩)) 0 = .error "cv2.error" from rfl] at ho
  cases ho

/-- The NMS loop only ever returns entries drawn from the accepted list and the
remaining candidates. -/
theorem nmsGo_sublist (tw th maxR : ℕ) :
    ∀ (cands final : List Cand),
      List.Sublist (nmsGo tw th maxR cands final) (final ++ cands) := by
  intro cands
  induction cands with
  | nil =>
    intro final
    simp [nmsGo]
  | cons c rest ih =>
    intro final
    simp only [nmsGo]
    by_cases hstop : maxR ≤ final.length
    · simp only [if_pos hstop]
      exact List.sublist_append_left final (c :: rest)
    · simp only [if_neg hstop]
      by_cases hov : final.any (fun e => overlapBig tw th c e)
      · simp only [hov, if_true]
        refine (ih final).trans ?_
        refine List.Sublist.append_left ?_ final
        exact List.sublist_cons_self c rest
      · simp only [eq_false_of_ne_true hov, if_false]
        have h := ih (final ++ [c])
        rwa [List.append_assoc, List.singleton_append] at h

/-- Symmetry of the overlap area. -/
theorem overlapArea_comm (tw th : ℕ) (a b : Cand) :
    overlapArea tw th a b = overlapArea tw th b a := by
  simp only [overlapArea, min_comm (a.1 + tw), max_comm a.1,
    min_comm (a.2.1 + th), max_comm a.2.1]

/-- The NMS loop preserves the pairwise half-overlap bound of the accepted
list, because a candidate is accepted only after the overlap check against
every already-accepted entry passes. -/
theorem nmsGo_pairwise (tw th maxR : ℕ) :
    ∀ (cands final : List Cand),
      List.Pairwise (fun a b => 2 * overlapArea tw th a b ≤ tw * th) final →
        List.Pairwise (fun a b => 2 * overlapArea tw th a b ≤ tw * th)
          (nmsGo tw th maxR cands final) := by
  intro cands
  induction cands with
  | nil => intro final h; simpa [nmsGo] using h
  | cons c rest ih =>
    intro final h
    simp only [nmsGo]
    by_cases hstop : maxR ≤ final.length
    · simpa [if_pos hstop] using h
    · simp only [if_neg hstop]
      by_cases hov : final.any (fun e => overlapBig tw th c e)
      · simp only [hov, if_true]
        exact ih final h
      · simp only [eq_false_of_ne_true hov, if_false]
        refine ih (final ++ [c]) ?_
        rw [List.pairwise_append]
        refine ⟨h, List.pairwise_singleton _ c, ?_⟩
        intro e he x hx
        rw [List.mem_singleton] at hx
        rw [hx]
        have hfalse : overlapBig tw th c e = false := by
          cases hb : overlapBig tw th c e with
          | false => rfl
          | true => exact absurd (List.any_eq_true.mpr ⟨e, he, hb⟩) hov
        have : ¬ (tw * th < 2 * overlapArea tw th c e) := by
          simpa [overlapBig] using hfalse
        rw [overlapArea_comm tw th e c]
        exact le_of_not_lt this

/-- The NMS loop never grows the accepted list beyond `max_results`. -/
theorem nmsGo_length (tw th maxR : ℕ) :
    ∀ (cands final : List Cand), final.length ≤ maxR →
      (nmsGo tw th maxR cands final).length ≤ maxR := by
  intro cands
  induction cands with
  | nil => intro final h; simpa [nmsGo] using h
  | cons c rest ih =>
    intro final h
    simp only [nmsGo]
    by_cases hstop : maxR ≤ final.length
    · simpa [if_pos hstop] using h
    · simp only [if_neg hstop]
      by_cases hov : final.any (fun e => overlapBig tw th c e)
      · simp only [hov, if_true]
        exact ih final h
      · simp only [eq_false_of_ne_true hov, if_false]
        refine ih (final ++ [c]) ?_
        have : final.length + 1 ≤ maxR := Nat.succ_le_of_lt (lt_of_not_le hstop)
        simpa using this


/-- Every thresholded location carries a score at least the threshold. -/
theorem thresholdLocations_conf (result : List (List ℚ)) (t : ℚ) :
    ∀ p ∈ thresholdLocations result t, t ≤ p.2.2 := by
  intro p hp
  simp only [thresholdLocations, List.mem_flatMap] at hp
  obtain ⟨yrow, _, hmem⟩ := hp
  rw [List.mem_filterMap] at hmem
  obtain ⟨xv, _, hxv⟩ := hmem
  by_cases hle : t ≤ xv.2
  · rw [if_pos hle] at hxv
    cases hxv
    exact hle
  · rw [if_neg hle] at hxv
    cases hxv

/-- C7 (amended): `find_all_matches` returns at-or-above-threshold locations
(the comparison at line 390 is `result >= threshold`, so a score exactly equal
to the threshold is included) after non-maximum suppression, such that: every
returned entry is one of the thresholded scan locations and scores at least the
threshold; no two returned boxes overlap by more than 50% of the template area
(the boxes share the template's size, so this is 50% of the smaller box's
area); the results are sorted by confidence descending; the list length is at
most `max_results`; and calling it twice on the same inputs yields identical
results. -/
theorem find_all_matches_nms_properties (result : List (List ℚ)) (tw th : ℕ)
    (t : ℚ) (maxR : ℕ) :
    (∀ p ∈ findAllMatches result tw th t maxR,
        p ∈ thresholdLocations result t ∧ t ≤ p.2.2) ∧
      List.Pairwise (fun a b => 2 * overlapArea tw th a b ≤ tw * th)
        (findAllMatches result tw th t maxR) ∧
      List.Sorted confGE (findAllMatches result tw th t maxR) ∧
      (findAllMatches result tw th t maxR).length ≤ maxR ∧
      findAllMatches result tw th t maxR = findAllMatches result tw th t maxR := by
  have hsub : List.Sublist (findAllMatches result tw th t maxR)
      (List.insertionSort confGE (thresholdLocations result t)) := by
    simpa using nmsGo_sublist tw th maxR
      (List.insertionSort confGE (thresholdLocations result t)) []
  refine ⟨?_, ?_, ?_, ?_, rfl⟩
  · intro p hp
    have hmem : p ∈ List.insertionSort confGE (thresholdLocations result t) :=
      hsub.subset hp
    have hmem' : p ∈ thresholdLocations result t :=
      (List.perm_insertionSort confGE (thresholdLocations result t)).mem_iff.mp hmem
    exact ⟨hmem', thresholdLocations_conf result t p hmem'⟩
  · exact nmsGo_pairwise tw th maxR
      (List.insertionSort confGE (thresholdLocations result t)) [] List.Pairwise.nil
  · exact List.Pairwise.sublist hsub
      (List.sorted_insertionSort confGE (thresholdLocations result t))
  · exact nmsGo_length tw th maxR
      (List.insertionSort confGE (thresholdLocations result t)) []
      (Nat.zero_le maxR)

/-- Witness for C7: a concrete 2 by 2 correlation matrix with scores 1 and 0,
threshold 1, unit template: the theorem's conjuncts instantiated there. -/
theorem find_all_matches_nms_properties_witness :
    (∀ p ∈ findAllMatches [[1, 0], [0, 1]] 1 1 1 10,
        p ∈ thresholdLocations [[1, 0], [0, 1]] 1 ∧ (1 : ℚ) ≤ p.2.2) ∧
      List.Pairwise (fun a b => 2 * overlapArea 1 1 a b ≤ 1 * 1)
        (findAllMatches [[1, 0], [0, 1]] 1 1 1 10) ∧
      List.Sorted confGE (findAllMatches [[1, 0], [0, 1]] 1 1 1 10) ∧
      (findAllMatches [[1, 0], [0, 1]] 1 1 1 10).length ≤ 10 := by
  have h := find_all_matches_nms_properties [[1, 0], [0, 1]] 1 1 1 10
  exact ⟨h.1, h.2.1, h.2.2.1, h.2.2.2.1⟩

/-- C7 boundary counterexample: the claim describes the returned entries as
the above-threshold locations, but the source filters with
`result >= threshold` (line 390): a location scoring exactly the threshold is
returned, and its confidence does not strictly exceed the threshold. -/
theorem find_all_matches_threshold_boundary_counterexample :
    findAllMatches [[1]] 1 1 1 10 = [(0, 0, 1)] ∧ ¬ ((1 : ℚ) < 1) := by
  constructor
  · decide
  · exact lt_irrefl 1

/-- C8: when the scan region is unconfigured (`not self.scan_area`) or no
keybind is configured (`not self.keybinds`), `start()` returns `False` and the
state is unchanged — `running` stays false and no detection thread is spawned;
otherwise, from the stopped state, `start()` returns `True`, sets `running`,
clears `paused` and spawns the detection thread (lines 96-118). -/
theorem start_requires_configuration (s : DetectorState)
    (hstopped : s.running = false) :
    ((s.scanArea = none ∨ s.keybinds = []) → start s = (false, s)) ∧
      (s.scanArea ≠ none → s.keybinds ≠ [] →
        (start s).1 = true ∧ (start s).2.running = true ∧
          (start s).2.paused = false ∧ (start s).2.threadSpawned = true) := by
  constructor
  · intro hbad
    rcases hbad with hscan | hkb
    · simp [start, hstopped, hscan]
    · simp [start, hstopped, hkb]
  · intro hscan hkb
    simp [start, hstopped, hscan, hkb]

/-- Witness for C8: an unconfigured stopped detector fails to start unchanged,
and a configured stopped detector starts running with the thread spawned. -/
theorem start_requires_configuration_witness :
    start ⟨false, false, false, none, [("N5", "1")]⟩ =
        (false, ⟨false, false, false, none, [("N5", "1")]⟩) ∧
      (start ⟨false, false, false, some (0, 0, 40, 40), [("N5", "1")]⟩).1 = true ∧
      (start ⟨false, false, false, some (0, 0, 40, 40), [("N5", "1")]⟩).2.running = true ∧
      (start ⟨false, false, false, some (0, 0, 40, 40), [("N5", "1")]⟩).2.paused = false ∧
      (start ⟨false, false, false, some (0, 0, 40, 40), [("N5", "1")]⟩).2.threadSpawned
        = true := by
  have h1 := start_requires_configuration
    ⟨false, false, false, none, [("N5", "1")]⟩ rfl
  have h2 := start_requires_configuration
    ⟨false, false, false, some (0, 0, 40, 40), [("N5", "1")]⟩ rfl
  have h2c := h2.2 (by simp) (by simp)
  exact ⟨h1.1 (Or.inl rfl), h2c.1, h2c.2.1, h2c.2.2.1, h2c.2.2.2⟩

/-- Lookup after insertion at the inserted key. -/
theorem dlookup_dinsert_self {α : Type} (l : List (String × α)) (k : String)
    (v : α) : dlookup (dinsert l k v) k = some v := by
  induction l with
  | nil => simp [dinsert, dlookup]
  | cons p rest ih =>
    obtain ⟨k1, v1⟩ := p
    by_cases h : k1 = k
    · simp [dinsert, dlookup, h]
    · simp [dinsert, dlookup, h, ih]

/-- Lookup after insertion at a different key. -/
theorem dlookup_dinsert_ne {α : Type} (l : List (String × α)) (k k2 : String)
    (v : α) (h : k2 ≠ k) : dlookup (dinsert l k v) k2 = dlookup l k2 := by
  have hk : ¬ k = k2 := fun he => h he.symm
  induction l with
  | nil => simp [dinsert, dlookup, hk]
  | cons p rest ih =>
    obtain ⟨k1, v1⟩ := p
    by_cases h1 : k1 = k
    · subst h1
      simp [dinsert, dlookup, hk]
    · simp [dinsert, dlookup, h1, ih]

/-- Lookup after deletion at a different key. -/
theorem dlookup_derase_ne {α : Type} (l : List (String × α)) (k k2 : String)
    (h : k2 ≠ k) : dlookup (derase l k) k2 = dlookup l k2 := by
  have hk : ¬ k = k2 := fun he => h he.symm
  induction l with
  | nil => simp [derase]
  | cons p rest ih =>
    obtain ⟨k1, v1⟩ := p
    by_cases h1 : k1 = k
    · subst h1
      simp [derase, dlookup, hk]
    · simp [derase, dlookup, h1, ih]

/-- An absent key looks up to nothing. -/
theorem dlookup_eq_none_of_not_mem {α : Type} (l : List (String × α))
    (k : String) (h : k ∉ l.map Prod.fst) : dlookup l k = none := by
  induction l with
  | nil => rfl
  | cons p rest ih =>
    obtain ⟨k1, v1⟩ := p
    simp only [List.map_cons, List.mem_cons] at h
    push_neg at h
    have hne : ¬ k1 = k := fun he => h.1 he.symm
    simp [dlookup, hne, ih h.2]

/-- Deleting a key from a duplicate-free association list removes it. -/
theorem dlookup_derase_self {α : Type} (l : List (String × α)) (k : String)
    (hnd : (l.map Prod.fst).Nodup) : dlookup (derase l k) k = none := by
  induction l with
  | nil => rfl
  | cons p rest ih =>
    obtain ⟨k1, v1⟩ := p
    simp only [List.map_cons, List.nodup_cons] at hnd
    by_cases h1 : k1 = k
    · subst h1
      simp only [derase, if_pos rfl]
      exact dlookup_eq_none_of_not_mem rest k1 hnd.1
    · simp [derase, dlookup, h1, ih hnd.2]

/-- The keys of an insertion are among the old keys and the inserted key. -/
theorem mem_keys_dinsert {α : Type} (l : List (String × α)) (k x : String)
    (v : α) (hx : x ∈ (dinsert l k v).map Prod.fst) :
    x ∈ l.map Prod.fst ∨ x = k := by
  induction l with
  | nil =>
    simp only [dinsert, List.map_cons, List.map_nil, List.mem_singleton] at hx
    exact Or.inr hx
  | cons p rest ih =>
    obtain ⟨k1, v1⟩ := p
    by_cases h1 : k1 = k
    · subst h1
      have e : dinsert ((k1, v1) :: rest) k1 v = (k1, v) :: rest := by
        simp [dinsert]
      rw [e] at hx
      simp only [List.map_cons, List.mem_cons] at hx
      rcases hx with he | hm
      · exact Or.inl (by simp [he])
      · exact Or.inl (by simp [hm])
    · have e : dinsert ((k1, v1) :: rest) k v = (k1, v1) :: dinsert rest k v := by
        simp [dinsert, h1]
      rw [e] at hx
      simp only [List.map_cons, List.mem_cons] at hx
      rcases hx with he | hm
      · exact Or.inl (by simp [he])
      · rcases ih hm with hl | hr
        · exact Or.inl (by simp [hl])
        · exact Or.inr hr

/-- Insertion preserves duplicate-freeness of the keys (dict semantics:
replace in place, or append a fresh key). -/
theorem nodup_keys_dinsert {α : Type} (l : List (String × α)) (k : String)
    (v : α) (hnd : (l.map Prod.fst).Nodup) :
    ((dinsert l k v).map Prod.fst).Nodup := by
  induction l with
  | nil => simp [dinsert]
  | cons p rest ih =>
    obtain ⟨k1, v1⟩ := p
    simp only [List.map_cons, List.nodup_cons] at hnd
    by_cases h1 : k1 = k
    · subst h1
      have e : dinsert ((k1, v1) :: rest) k1 v = (k1, v) :: rest := by
        simp [dinsert]
      rw [e]
      simp only [List.map_cons, List.nodup_cons]
      exact hnd
    · have e : dinsert ((k1, v1) :: rest) k v = (k1, v1) :: dinsert rest k v := by
        simp [dinsert, h1]
      rw [e]
      simp only [List.map_cons, List.nodup_cons]
      refine ⟨?_, ih hnd.2⟩
      intro hmem
      rcases mem_keys_dinsert rest k k1 v hmem with hl | hr
      · exact hnd.1 hl
      · exact h1 hr

/-- C9: rename moves the template image and the key binding together.  On a
duplicate-free store holding `oldName` with image `img` and key `key`, and with
`oldName` different from the (nonempty) `newName`: if `newName` is already
present in the template mapping the rename is refused and both mappings are
unchanged; otherwise, afterwards, looking up `oldName` in either mapping yields
nothing and `newName` yields the original image and the original key
(configuration_dialog.py lines 287-340). -/
theorem rename_spell_atomic {Img : Type} (tpls : List (String × Img))
    (kbs : List (String × String)) (oldName newName : String) (img : Img)
    (key : String)
    (hndt : (tpls.map Prod.fst).Nodup) (hndk : (kbs.map Prod.fst).Nodup)
    (holdT : dlookup tpls oldName = some img)
    (holdK : dlookup kbs oldName = some key)
    (hne : oldName ≠ newName) (hnn : newName ≠ "") :
    ((dlookup tpls newName).isSome →
        renameSpell tpls kbs oldName newName = (tpls, kbs)) ∧
      (dlookup tpls newName = none →
        dlookup (renameSpell tpls kbs oldName newName).1 oldName = none ∧
          dlookup (renameSpell tpls kbs oldName newName).2 oldName = none ∧
          dlookup (renameSpell tpls kbs oldName newName).1 newName = some img ∧
          dlookup (renameSpell tpls kbs oldName newName).2 newName = some key) := by
  constructor
  · intro hsome
    simp [renameSpell, hnn, hne, hsome]
  · intro hnone
    have heval : renameSpell tpls kbs oldName newName =
        (derase (dinsert tpls newName img) oldName,
          derase (dinsert kbs newName key) oldName) := by
      simp [renameSpell, hnn, hne, hnone, holdT, holdK]
    rw [heval]
    refine ⟨?_, ?_, ?_, ?_⟩
    · exact dlookup_derase_self (dinsert tpls newName img) oldName
        (nodup_keys_dinsert tpls newName img hndt)
    · exact dlookup_derase_self (dinsert kbs newName key) oldName
        (nodup_keys_dinsert kbs newName key hndk)
    · show dlookup (derase (dinsert tpls newName img) oldName) newName = some img
      rw [dlookup_derase_ne (dinsert tpls newName img) oldName newName
        (fun h => hne h.symm)]
      exact dlookup_dinsert_self tpls newName img
    · show dlookup (derase (dinsert kbs newName key) oldName) newName = some key
      rw [dlookup_derase_ne (dinsert kbs newName key) oldName newName
        (fun h => hne h.symm)]
      exact dlookup_dinsert_self kbs newName key

/-- Witness for C9: renaming "F" (image 10, key "1") to the fresh name "G"
moves both entries, and renaming "F" to the occupied name "H" is refused with
both mappings unchanged. -/
theorem rename_spell_atomic_witness :
    (dlookup (renameSpell [("F", (10 : ℕ))] [("F", "1")] "F" "G").1 "F" = none ∧
        dlookup (renameSpell [("F", (10 : ℕ))] [("F", "1")] "F" "G").2 "F" = none ∧
        dlookup (renameSpell [("F", (10 : ℕ))] [("F", "1")] "F" "G").1 "G" =
          some 10 ∧
        dlookup (renameSpell [("F", (10 : ℕ))] [("F", "1")] "F" "G").2 "G" =
          some "1") ∧
      renameSpell [("F", (10 : ℕ)), ("H", 20)] [("F", "1")] "F" "H" =
        ([("F", (10 : ℕ)), ("H", 20)], [("F", "1")]) := by
  constructor
  · exact (rename_spell_atomic [("F", (10 : ℕ))] [("F", "1")] "F" "G" 10 "1"
      (by simp) (by simp) (by simp [dlookup]) (by simp [dlookup])
      (by decide) (by decide)).2 (by simp [dlookup])
  · exact (rename_spell_atomic [("F", (10 : ℕ)), ("H", 20)] [("F", "1")] "F" "H"
      10 "1" (by simp) (by simp) (by simp [dlookup]) (by simp [dlookup])
      (by decide) (by decide)).1 (by simp [dlookup])

/-- Membership is preserved by the first-keys fold: the accumulator only
grows. -/
theorem mem_firstKeys_foldl (l : List String) :
    ∀ (acc : List String) (x : String), x ∈ acc ∨ x ∈ l →
      x ∈ l.foldl (fun a y => if y ∈ a then a else a ++ [y]) acc := by
  induction l with
  | nil =>
    intro acc x hx
    rcases hx with h | h
    · exact h
    · cases h
  | cons y rest ih =>
    intro acc x hx
    simp only [List.foldl_cons]
    refine ih (if y ∈ acc then acc else acc ++ [y]) x ?_
    rcases hx with h | h
    · left
      by_cases hy : y ∈ acc
      · simpa [hy] using h
      · simp [hy, List.mem_append]
        exact Or.inl h
    · rcases List.mem_cons.mp h with rfl | h'
      · left
        by_cases hy : x ∈ acc
        · simp [hy]
        · simp [hy]
      · exact Or.inr h'

/-- Every element of the window appears among its first-occurrence keys. -/
theorem mem_firstKeys (l : List String) (x : String) (hx : x ∈ l) :
    x ∈ firstKeys l :=
  mem_firstKeys_foldl l [] x (Or.inr hx)

/-- The most-common scan returns a name whose count dominates every processed
key and the running best count. -/
theorem mostCommonGo_max (l : List String) :
    ∀ (keys : List String) (best : String) (bc : ℕ),
      bc = countName l best ∨ bc = 0 →
        (∀ k ∈ keys, countName l k ≤ countName l (mostCommonGo l keys best bc)) ∧
          bc ≤ countName l (mostCommonGo l keys best bc) := by
  intro keys
  induction keys with
  | nil =>
    intro best bc hbc
    refine ⟨fun k hk => absurd hk (List.not_mem_nil k), ?_⟩
    rcases hbc with h | h
    · simp [mostCommonGo, h]
    · simp [mostCommonGo, h]
  | cons k keys ih =>
    intro best bc hbc
    simp only [mostCommonGo]
    by_cases hlt : bc < countName l k
    · simp only [if_pos hlt]
      obtain ⟨hall, hbest⟩ := ih k (countName l k) (Or.inl rfl)
      refine ⟨?_, le_trans (le_of_lt hlt) hbest⟩
      intro k' hk'
      rcases List.mem_cons.mp hk' with rfl | hk''
      · exact hbest
      · exact hall k' hk''
    · simp only [if_neg hlt]
      obtain ⟨hall, hbest⟩ := ih best bc hbc
      refine ⟨?_, hbest⟩
      intro k' hk'
      rcases List.mem_cons.mp hk' with rfl | hk''
      · exact le_trans (le_of_not_lt hlt) hbest
      · exact hall k' hk''

/-- The `Counter(...).most_common(1)` pick has maximal frequency in the
window. -/
theorem countName_mostCommon_max (l : List String) (d : String) :
    ∀ x ∈ l, countName l x ≤ countName l (mostCommon l d) := by
  intro x hx
  exact (mostCommonGo_max l (firstKeys l) d 0 (Or.inr rfl)).1 x (mem_firstKeys l x hx)

/-- Evaluation of `IconMatcher.find_best_match` when the current frame has a
raw best match and the window reaches the stability threshold: the window is
pushed, and the output name is the raw name on a stable window, else the
most-common pick; the confidence is the raw best confidence either way. -/
theorem iconMatcherFindBestMatch_eval (recent : List String)
    (results : List (String × ℚ)) (name : String) (conf : ℚ)
    (hraw : bestRawGo results none 0 = (some name, conf))
    (hname : name ≠ "") (hlen : 2 ≤ (pushRecent recent name).length) :
    iconMatcherFindBestMatch recent results =
      ((some (if allSame (lastEntries 2 (pushRecent recent name))
          then name else mostCommon (pushRecent recent name) name), conf),
        pushRecent recent name) := by
  simp only [iconMatcherFindBestMatch, hraw, if_neg hname, if_pos hlen]
  by_cases hs : allSame (lastEntries 2 (pushRecent recent name))
  · simp [hs]
  · simp [hs]

/-- C5 (amended): once the window (capacity 3) holds at least
`stability_threshold = 2` entries after the push, if the most recent two
entries agree the output is that name; otherwise the output is the most
frequent name of the whole window, with frequency ties broken in favour of the
first-seen name (the insertion order of `Counter`), not the most recently
seen one.  For the sequence A, B, A the output is A (icon_matcher.py lines
86-104). -/
theorem stability_window_output (recent : List String)
    (results : List (String × ℚ)) (name : String) (conf : ℚ)
    (hraw : bestRawGo results none 0 = (some name, conf))
    (hname : name ≠ "") (hlen : 2 ≤ (pushRecent recent name).length) :
    (allSame (lastEntries 2 (pushRecent recent name)) = true →
        (iconMatcherFindBestMatch recent results).1 = (some name, conf)) ∧
      (allSame (lastEntries 2 (pushRecent recent name)) = false →
        (iconMatcherFindBestMatch recent results).1 =
            (some (mostCommon (pushRecent recent name) name), conf) ∧
          ∀ x ∈ pushRecent recent name,
            countName (pushRecent recent name) x ≤
              countName (pushRecent recent name)
                (mostCommon (pushRecent recent name) name)) := by
  have he := iconMatcherFindBestMatch_eval recent results name conf hraw hname hlen
  constructor
  · intro hs
    rw [he, hs]
    simp
  · intro hs
    rw [he, hs]
    refine ⟨by simp, ?_⟩
    exact countName_mostCommon_max (pushRecent recent name) name

/-- Witness for C5: the stable case — window A, A after pushing A onto [A] —
returns A; the spec's example sequence A, B, A (window [A, B] and a raw best
B... here window [A, B, A] after pushing A onto [A, B]) has an unstable tail
B, A and returns the most frequent name A. -/
theorem stability_window_output_witness :
    (iconMatcherFindBestMatch ["A"] [("A", 1)]).1 = (some "A", 1) ∧
      (iconMatcherFindBestMatch ["A", "B"] [("A", 1)]).1 = (some "A", 1) := by
  have h1 := stability_window_output ["A"] [("A", 1)] "A" 1 rfl
    (by decide) (by decide)
  have h2 := stability_window_output ["A", "B"] [("A", 1)] "A" 1 rfl
    (by decide) (by decide)
  refine ⟨h1.1 (by decide), ?_⟩
  have h2c := (h2.2 (by decide)).1
  rw [h2c]
  rfl

/-- C5 counterexample: the claimed tie-break is most-recently-seen, but
`Counter.most_common` resolves ties by first occurrence: after the raw
sequence A then B the window is [A, B], a frequency tie, and the code returns
A while the spec-modelled most-recent tie-break returns B. -/
theorem stability_tie_break_counterexample :
    (iconMatcherFindBestMatch ["A"] [("B", 1)]).1.1 = some "A" ∧
      specMostFrequentRecentTie (pushRecent ["A"] "B") "B" = "B" ∧
      ("A" : String) ≠ "B" := by
  refine ⟨by decide, by decide, by decide⟩

/-- C10: in the unstable branch the returned pair combines the most frequent
window name with the confidence of the *current* frame's raw best match, which
may have been computed for a different template: the returned name is the
most-common pick (with maximal frequency in the window) while the returned
confidence is the raw best confidence of this frame. -/
theorem unstable_branch_name_confidence_pairing (recent : List String)
    (results : List (String × ℚ)) (name : String) (conf : ℚ)
    (hraw : bestRawGo results none 0 = (some name, conf))
    (hname : name ≠ "") (hlen : 2 ≤ (pushRecent recent name).length)
    (hunstable : allSame (lastEntries 2 (pushRecent recent name)) = false) :
    (iconMatcherFindBestMatch recent results).1.1 =
        some (mostCommon (pushRecent recent name) name) ∧
      (iconMatcherFindBestMatch recent results).1.2 =
        (bestRawGo results none 0).2 ∧
      (∀ x ∈ pushRecent recent name,
        countName (pushRecent recent name) x ≤
          countName (pushRecent recent name)
            (mostCommon (pushRecent recent name) name)) := by
  have he := iconMatcherFindBestMatch_eval recent results name conf hraw hname hlen
  rw [he, hunstable]
  refine ⟨by simp, by rw [hraw], ?_⟩
  exact countName_mostCommon_max (pushRecent recent name) name

/-- Witness for C10: window [A] and a current frame whose raw best is B at
confidence 1 — the returned name is A (most frequent in the window [A, B])
while the returned confidence 1 was computed for template B. -/
theorem unstable_branch_name_confidence_pairing_witness :
    (iconMatcherFindBestMatch ["A"] [("B", 1)]).1.1 = some "A" ∧
      (iconMatcherFindBestMatch ["A"] [("B", 1)]).1.2 = 1 ∧
      (bestRawGo [("B", 1)] none 0).1 = some "B" ∧
      ("A" : String) ≠ "B" := by
  have h := unstable_branch_name_confidence_pairing ["A"] [("B", 1)] "B" 1 rfl
    (by decide) (by decide) (by decide)
  refine ⟨?_, ?_, by decide, by decide⟩
  · rw [h.1]
    rfl
  · rw [h.2.1]
    rfl

/-- C3: the template-scanning step of `_detection_loop` reads the attributes
`templates`, `keyboard_controller` and `last_detection_time`, none of which is
assigned by any state-establishing method of `SpellDetector` (the constructor
and `update_config` assign `icon_templates`, `keyboard` and
`last_action_time` instead); under the environment established by the
constructor, the first successful-capture tick raises `AttributeError` at its
first scan read, `self.templates` (line 200) — before the loop's own
line-226 assignment could ever run — so the loop cannot complete a scan tick
normally while `self.running` remains true. -/
theorem detection_loop_reads_unassigned_attributes :
    ("templates" ∈ scanTickReads ∧ "keyboard_controller" ∈ scanTickReads ∧
        "last_detection_time" ∈ scanTickReads) ∧
      (∀ assigns ∈ methodAssigns, "templates" ∉ assigns ∧
        "keyboard_controller" ∉ assigns ∧ "last_detection_time" ∉ assigns) ∧
      firstUndefinedRead constructorEnv = some "templates" ∧
      tickCompletes constructorEnv = false := by
  refine ⟨by decide, by decide, by decide, by decide⟩

/-- C2 (code bug): the cooldown-gated dispatch the claim describes never
happens in this program.  The cooldown comparison at line 215 reads
`self.last_detection_time` and the dispatch at line 224 reads
`self.keyboard_controller`, but neither name — nor `templates`, read first at
line 200 — belongs to any environment the program can establish: the
constructor-state tick aborts with `AttributeError` at `templates`, and the
press site stays unreachable even under the union of every attribute any
method ever assigns.  Hence no key dispatch occurs on any tick, and in
particular a qualifying match arriving exactly `cooldown` seconds after a
previous trigger is not dispatched, contrary to the claim: the gate written
at lines 213-227 matches the claim but is dead code behind mismatched
attribute names. -/
theorem cooldown_dispatch_never_occurs :
    scanTickRun constructorEnv = TickResult.attrError "templates" ∧
      pressReachable constructorEnv = false ∧
      pressReachable establishableAttributes = false ∧
      ("last_detection_time" ∈ readsBeforePress ∧
        "last_detection_time" ∉ establishableAttributes) := by
  refine ⟨by decide, by decide, by decide, by decide⟩

/-- C4 (code bug): every tick of the detection loop dispatches zero key
presses, not the claimed at-most-one-with-first-qualifier: the scanning
step's first read, `self.templates` (line 200), is undefined in every
environment the program can establish — even under the union of all
assignable attributes — so the `AttributeError` aborts the tick before any
template is examined, and the press site (line 224, itself an unresolvable
`keyboard_controller` read) can never run.  The first-qualifying-template
dispatch the claim describes is dead code. -/
theorem detection_tick_dispatches_no_key :
    scanTickRun establishableAttributes = TickResult.attrError "templates" ∧
      pressReachable establishableAttributes = false ∧
      ("keyboard_controller" ∈ readsBeforePress ∧
        "keyboard_controller" ∉ establishableAttributes) ∧
      ("templates" ∈ scanTickReads ∧ "templates" ∉ establishableAttributes) := by
  refine ⟨by decide, by decide, by decide, by decide⟩

end SpellClickMaster
